import Mathlib

/-!
Shallow embedding of the request-orchestration core of the Momolita image
app (src/services/geminiService.ts and the fan-out batch logic of
src/components/ProfilePictureGenerator.tsx), together with theorems
settling the specification claims about it.

The remote generation endpoint is external; it is modelled as a function
from the request parts and the attempt number to either a response or a
failure detail string.  The retrying transport additionally returns the
number of endpoint invocations it made and the list of backoff delays
(in milliseconds) it waited, so that call-count and backoff claims can be
stated about it.
-/

namespace Momolita

/-- One unit of a multimodal request payload: an inline image
(media type + base64 payload) or a block of text, as in the `Part`
values built throughout geminiService.ts. -/
inductive Part where
  | inlineData (mimeType data : String)
  | text (t : String)
deriving DecidableEq, Repr

/-- One content part of a model response: the SDK part has optional
inline-data and optional text fields. -/
structure GPart where
  inlineData : Option (String × String) := none
  text : Option String := none
deriving DecidableEq, Repr

/-- A model response, reduced to the content parts of its first
candidate (`response.candidates?.[0]?.content?.parts`); a missing
candidate/content is the empty list. -/
structure GeminiResponse where
  parts : List GPart
deriving DecidableEq, Repr

/-- `beginsWith pat l` is true when `pat` is an initial segment of `l`
(the List-level model of JavaScript `String.prototype.startsWith` /
anchored regex prefixes). -/
def beginsWith : List Char → List Char → Bool
  | [], _ => true
  | _ :: _, [] => false
  | a :: as, b :: bs => a == b && beginsWith as bs

/-- `containsSeq pat l` is true when `pat` occurs contiguously inside
`l` (the model of JavaScript `String.prototype.includes`). -/
def containsSeq (pat : List Char) : List Char → Bool
  | [] => pat.isEmpty
  | b :: bs => beginsWith pat (b :: bs) || containsSeq pat bs

/-- The transient-failure classifier of `callImageModelWithRetry`
(geminiService.ts line 58): the stringified error contains
`"code":500` or `INTERNAL`. -/
def isInternalError (msg : String) : Bool :=
  containsSeq "\"code\":500".data msg.data || containsSeq "INTERNAL".data msg.data

/-- The retry loop of `callImageModelWithRetry` (lines 46-68).  `attempt`
counts from 1; `fuel` bounds the recursion (`maxRetries` suffices).
Returns the final outcome, the number of endpoint invocations made, and
the backoff delays waited between attempts. -/
def callImageModelWithRetryGo (endpoint : List Part → Nat → Except String GeminiResponse)
    (parts : List Part) (maxRetries initialDelay : Nat) :
    Nat → Nat → Except String GeminiResponse × Nat × List Nat
  | _, 0 => (Except.error "Gemini API call failed after all retries.", 0, [])
  | attempt, fuel + 1 =>
    match endpoint parts attempt with
    | Except.ok r => (Except.ok r, 1, [])
    | Except.error e =>
      if isInternalError e ∧ attempt < maxRetries then
        let delay := initialDelay * 2 ^ (attempt - 1)
        let rest := callImageModelWithRetryGo endpoint parts maxRetries initialDelay (attempt + 1) fuel
        (rest.1, rest.2.1 + 1, delay :: rest.2.2)
      else
        (Except.error e, 1, [])

/-- `callImageModelWithRetry` (geminiService.ts lines 42-71):
maxRetries = 3, initialDelay = 1000ms, attempts numbered from 1. -/
def callImageModelWithRetry (endpoint : List Part → Nat → Except String GeminiResponse)
    (parts : List Part) : Except String GeminiResponse × Nat × List Nat :=
  callImageModelWithRetryGo endpoint parts 3 1000 1 3

/-- An encoded image on the wire: media type plus base64 payload, the
two capture groups of the data-URL regex used across geminiService.ts. -/
structure EncodedImage where
  mediaType : String
  payload : String
deriving DecidableEq, Repr

/-- The character class `\w` of the JavaScript regexes (ASCII word
characters). -/
def wordChar (c : Char) : Bool :=
  c.isAlpha || c.isDigit || c == '_'

/-- The characters matched by `.` in a JavaScript regex without the `s`
flag: anything except the four line terminators. -/
def dotChar (c : Char) : Bool :=
  !(c == Char.ofNat 10 || c == Char.ofNat 13 ||
    c == Char.ofNat 0x2028 || c == Char.ofNat 0x2029)

/-- The error message thrown when a data URL does not match the regex. -/
def invalidFormatMsg : String :=
  "Invalid image data URL format. Expected 'data:image/...;base64,...'"

/-- Decoding side of the image codec: the match of
`/^data:(image\/\w+);base64,(.*)$/` performed at every operation entry
point (e.g. geminiService.ts lines 86-95).  Greedy `\w+` stops exactly
at the first non-word character (`;` is not a word character), and `.`
cannot match a line terminator while `$` anchors the end, so the
backtracking-free parser below is equivalent to the regex. -/
def decodeImageDataUrl (s : String) : Except String EncodedImage :=
  let cs := s.data
  if beginsWith "data:image/".data cs then
    let rest := cs.drop 11
    let w := rest.takeWhile wordChar
    let rest2 := rest.dropWhile wordChar
    if w ≠ [] ∧ beginsWith ";base64,".data rest2 then
      let payload := rest2.drop 8
      if payload.all dotChar then
        Except.ok ⟨"image/" ++ String.mk w, String.mk payload⟩
      else Except.error invalidFormatMsg
    else Except.error invalidFormatMsg
  else Except.error invalidFormatMsg

/-- Encoding side of the image codec: the template
`data:<mediaType>;base64,<payload>` used both for outbound image parts
and when re-encoding a response image (geminiService.ts line 29). -/
def encodeImageDataUrl (mediaType payload : String) : String :=
  "data:" ++ mediaType ++ ";base64," ++ payload

/-- Modelled from the spec: the external SDK accessor `response.text`
("extract any plain-text content the response carries"), the
concatenation of the text fields of the response's parts. -/
def responseText (r : GeminiResponse) : String :=
  String.join (r.parts.filterMap GPart.text)

/-- The fixed placeholder used when the response carries no text
(geminiService.ts line 34). -/
def placeholderText : String := "No text response received."

/-- `processGeminiResponse` (geminiService.ts lines 24-35): return a
data URL built from the first part carrying inline data, else fail with
a message embedding the response text (or the placeholder). -/
def processGeminiResponse (r : GeminiResponse) : Except String String :=
  match (r.parts.find? fun p => p.inlineData.isSome).bind GPart.inlineData with
  | some (m, d) => Except.ok (encodeImageDataUrl m d)
  | none =>
    let t := responseText r
    Except.error ("The AI model responded with text instead of an image: \"" ++
      (if t = "" then placeholderText else t) ++ "\"")

/-- The characters removed by JavaScript `String.prototype.trim`:
WhiteSpace (tab, vertical tab, form feed, space, NBSP, BOM and the
Unicode space separators) and LineTerminator (LF, CR, LS, PS). -/
def jsWhitespace (c : Char) : Bool :=
  [Char.ofNat 0x09, Char.ofNat 0x0a, Char.ofNat 0x0b, Char.ofNat 0x0c,
    Char.ofNat 0x0d, ' ', Char.ofNat 0xa0, Char.ofNat 0x1680,
    Char.ofNat 0x2000, Char.ofNat 0x2001, Char.ofNat 0x2002, Char.ofNat 0x2003,
    Char.ofNat 0x2004, Char.ofNat 0x2005, Char.ofNat 0x2006, Char.ofNat 0x2007,
    Char.ofNat 0x2008, Char.ofNat 0x2009, Char.ofNat 0x200a, Char.ofNat 0x2028,
    Char.ofNat 0x2029, Char.ofNat 0x202f, Char.ofNat 0x205f, Char.ofNat 0x3000,
    Char.ofNat 0xfeff].contains c

/-- `String.prototype.trim`: strip leading and trailing whitespace. -/
def jsTrim (s : String) : String :=
  String.mk (((s.data.dropWhile jsWhitespace).reverse.dropWhile jsWhitespace).reverse)

/-- The guard `additionalInstructions && additionalInstructions.trim() !== ''`
used before appending the regeneration block (e.g. lines 98, 546). -/
def nonEmptyAfterTrim : Option String → Bool
  | some s => jsTrim s ≠ ""
  | none => false

/-- The regeneration-instructions suffix appended to a prompt when the
optional refinement text is present and non-empty after trimming
(e.g. geminiService.ts lines 98-100, 546-548). -/
def regenSuffix (additionalInstructions : Option String) : String :=
  match additionalInstructions with
  | some s => if jsTrim s ≠ "" then "\n\n**REGENERATION INSTRUCTIONS:**\n" ++ s else ""
  | none => ""

/-- Decode a list of data URLs, propagating the first failure (the
`imageDataUrls.map` of generateStyledImage, lines 86-95, where a throw
aborts the whole map). -/
def decodeImageDataUrls : List String → Except String (List EncodedImage)
  | [] => Except.ok []
  | u :: rest =>
    match decodeImageDataUrl u with
    | Except.error e => Except.error e
    | Except.ok img =>
      match decodeImageDataUrls rest with
      | Except.error e => Except.error e
      | Except.ok imgs => Except.ok (img :: imgs)

/-- `generateStyledImage` (geminiService.ts lines 81-114): validate,
decode every input image, build parts (images first, text last), call
the retrying transport, resolve the response; transport/resolver
failures are wrapped with the operation-named message, while validation
and format failures propagate unwrapped before any endpoint call. -/
def generateStyledImage (endpoint : List Part → Nat → Except String GeminiResponse)
    (prompt : String) (imageDataUrls : List String)
    (additionalInstructions : Option String) :
    Except String String × Nat × List Nat :=
  if imageDataUrls.isEmpty then
    (Except.error "At least one image data URL is required.", 0, [])
  else
    match decodeImageDataUrls imageDataUrls with
    | Except.error e => (Except.error e, 0, [])
    | Except.ok imgs =>
      let finalPrompt := prompt ++ regenSuffix additionalInstructions
      let allParts := (imgs.map fun i => Part.inlineData i.mediaType i.payload) ++
        [Part.text finalPrompt]
      let r := callImageModelWithRetry endpoint allParts
      match r.1 with
      | Except.ok resp =>
        match processGeminiResponse resp with
        | Except.ok url => (Except.ok url, r.2.1, r.2.2)
        | Except.error e =>
          (Except.error ("The AI model failed to generate an image. Details: " ++ e),
            r.2.1, r.2.2)
      | Except.error e =>
        (Except.error ("The AI model failed to generate an image. Details: " ++ e),
          r.2.1, r.2.2)

/-- The TypeScript union type `4 | 6 | 8 | 9 | 12` of
`generatePhotoBoothImage`: the only grid counts a caller can supply. -/
inductive CollageCount where
  | four
  | six
  | eight
  | nine
  | twelve
deriving DecidableEq, Repr

/-- The numeric value of a collage count. -/
def CollageCount.toNat : CollageCount → Nat
  | four => 4
  | six => 6
  | eight => 8
  | nine => 9
  | twelve => 12

/-- The raw object-literal lookup of geminiService.ts lines 404-410,
read at an arbitrary numeric key: defined only on the closed set
4, 6, 8, 9, 12. -/
def gridLayoutLookup (n : Nat) : Option String :=
  if n = 4 then some "2x2"
  else if n = 6 then some "2x3"
  else if n = 8 then some "2x4"
  else if n = 9 then some "3x3"
  else if n = 12 then some "3x4"
  else none

/-- The grid layout chosen for a supported collage count (the same
lookup restricted to the union type, as the TypeScript code has it). -/
def gridLayout : CollageCount → String
  | .four => "2x2"
  | .six => "2x3"
  | .eight => "2x4"
  | .nine => "3x3"
  | .twelve => "3x4"

/-- The face-swap instruction template of `swapFacesInImage`
(geminiService.ts lines 532-544). -/
def swapFacesBasePrompt : String :=
  "\n**CRITICAL MISSION: Photorealistic Face Swap**\n\nYou will be given two images.\n-   **Image 1 (Source Image):** This is the main image. It contains the person, body, pose, clothing, and background that MUST be preserved.\n-   **Image 2 (Face Source):** This image contains the face that you MUST transfer onto the person in Image 1.\n\n**UNBREAKABLE RULES:**\n1.  **Identity Transfer:** You must extract the face from Image 2 and perfectly blend it onto the person in Image 1. The final image must have the body/pose/clothing/background of Image 1, but the face from Image 2.\n2.  **Seamless Integration:** The swapped face must be seamlessly integrated. This means you must perfectly match the lighting, skin tone, shadows, perspective, and color grading of the original Source Image (Image 1).\n3.  **Preserve Everything Else:** Everything in Image 1 EXCEPT for the face must remain unchanged. This includes hair (as much as possible), clothing, background, and overall composition.\n4.  **No Watermarks/Artifacts:** The final output must be a clean, high-quality photograph with no visual artifacts.\n"

/-- The parts-building prefix of `swapFacesInImage` (geminiService.ts
lines 511-552): decode both data URLs (with role-specific format
errors), then assemble the receiving image's Part, the face-source
image's Part, and the instruction text Part, in that order. -/
def swapFacesInImageParts (sourceImageDataUrl targetFaceDataUrl : String)
    (additionalInstructions : Option String) : Except String (List Part) :=
  match decodeImageDataUrl sourceImageDataUrl with
  | Except.error _ => Except.error "Invalid source image data URL format."
  | Except.ok srcImg =>
    match decodeImageDataUrl targetFaceDataUrl with
    | Except.error _ => Except.error "Invalid face source data URL format."
    | Except.ok faceImg =>
      Except.ok [Part.inlineData srcImg.mediaType srcImg.payload,
        Part.inlineData faceImg.mediaType faceImg.payload,
        Part.text (swapFacesBasePrompt ++ regenSuffix additionalInstructions)]

/-- `swapFacesInImage` (geminiService.ts lines 511-562), with its unused
third parameter kept in the signature exactly as in the source
(`_unused?: any`, never read by the body). -/
def swapFacesInImage {α : Type} (endpoint : List Part → Nat → Except String GeminiResponse)
    (sourceImageDataUrl targetFaceDataUrl : String) ( _unused : α)
    (additionalInstructions : Option String) :
    Except String String × Nat × List Nat :=
  match swapFacesInImageParts sourceImageDataUrl targetFaceDataUrl additionalInstructions with
  | Except.error e => (Except.error e, 0, [])
  | Except.ok parts =>
    let r := callImageModelWithRetry endpoint parts
    match r.1 with
    | Except.ok resp =>
      match processGeminiResponse resp with
      | Except.ok url => (Except.ok url, r.2.1, r.2.2)
      | Except.error e =>
        (Except.error ("The AI model failed to swap the face. Details: " ++ e),
          r.2.1, r.2.2)
    | Except.error e =>
      (Except.error ("The AI model failed to swap the face. Details: " ++ e),
        r.2.1, r.2.2)

/-- Per-item status cell of the fan-out batch
(ProfilePictureGenerator.tsx, type GeneratedImage). -/
inductive JobStatus where
  | pending
  | done (url : String)
  | error (msg : String)
deriving DecidableEq, Repr

/-- One fan-out job: a stable identifier and the prompt it runs. -/
structure PromptItem where
  id : String
  prompt : String
deriving DecidableEq, Repr

/-- `processSinglePrompt` (ProfilePictureGenerator.tsx lines 142-157):
run the generation for one prompt and record done/error in that job's
own status, catching the failure instead of propagating it.  `gen`
abstracts `generateStyledImage(promptItem.prompt, [image])` as a map
from prompt to outcome. -/
def processSinglePrompt (gen : String → Except String String)
    (promptItem : PromptItem) : JobStatus :=
  match gen promptItem.prompt with
  | Except.ok url => JobStatus.done url
  | Except.error e => JobStatus.error e

/-- Write one job's status cell, leaving every other key unchanged (the
`setGeneratedImages(prev => ({...prev, [id]: status}))` updates). -/
def setJobStatus (st : String → Option JobStatus) (key : String) (v : JobStatus) :
    String → Option JobStatus :=
  fun q => if q = key then some v else st q

/-- The initial status map of `handleGenerate` (lines 166-170): every
listed prompt id is pending. -/
def initialImages (prompts : List PromptItem) : String → Option JobStatus :=
  fun q => if prompts.any fun p => p.id = q then some JobStatus.pending else none

/-- The observable result of `handleGenerate`'s worker pool (lines
159-187): every queued job is processed exactly once and writes exactly
its own status cell; since distinct jobs write disjoint keys, the final
map is the sequential fold of the per-job updates over the initial
all-pending map, whatever order the three workers interleave in. -/
def runBatch (gen : String → Except String String) (prompts : List PromptItem) :
    String → Option JobStatus :=
  prompts.foldl (fun st p => setJobStatus st p.id (processSinglePrompt gen p))
    (initialImages prompts)

/-! ### Helper lemmas -/

theorem beginsWith_append (xs ys : List Char) : beginsWith xs (xs ++ ys) = true := by
  induction xs with
  | nil => rfl
  | cons a as ih => simp [beginsWith, ih]

theorem takeWhile_append_all (p : Char → Bool) (xs ys : List Char)
    (h : xs.all p = true) : (xs ++ ys).takeWhile p = xs ++ ys.takeWhile p := by
  induction xs with
  | nil => rfl
  | cons a as ih =>
    simp only [List.all_cons, Bool.and_eq_true] at h
    simp [List.takeWhile_cons, h.1, ih h.2]

theorem dropWhile_append_all (p : Char → Bool) (xs ys : List Char)
    (h : xs.all p = true) : (xs ++ ys).dropWhile p = ys.dropWhile p := by
  induction xs with
  | nil => rfl
  | cons a as ih =>
    simp only [List.all_cons, Bool.and_eq_true] at h
    simp [List.dropWhile_cons, h.1, ih h.2]

/-- Decoding a well-formed data URL, stated at the level of character
lists. -/
theorem decode_wellformed (wd pd : List Char)
    (hw : wd ≠ []) (hwall : wd.all wordChar = true) (hp : pd.all dotChar = true) :
    decodeImageDataUrl ⟨"data:image/".data ++ (wd ++ (";base64,".data ++ pd))⟩ =
      Except.ok ⟨"image/" ++ String.mk wd, String.mk pd⟩ := by
  have hdrop11 : ("data:image/".data ++ (wd ++ (";base64,".data ++ pd))).drop 11 =
      wd ++ (";base64,".data ++ pd) := List.drop_left' (by rfl)
  have hsemi : (";base64,".data ++ pd) = ';' :: ("base64,".data ++ pd) := rfl
  have htake : (wd ++ (";base64,".data ++ pd)).takeWhile wordChar = wd := by
    rw [takeWhile_append_all wordChar wd _ hwall, hsemi,
      List.takeWhile_cons_of_neg (by decide), List.append_nil]
  have hdropw : (wd ++ (";base64,".data ++ pd)).dropWhile wordChar =
      ";base64,".data ++ pd := by
    rw [dropWhile_append_all wordChar wd _ hwall, hsemi]
    simp [List.dropWhile_cons, (by decide : wordChar ';' = false)]
  have hdrop8 : (";base64,".data ++ pd).drop 8 = pd := List.drop_left' (by rfl)
  unfold decodeImageDataUrl
  simp only [hdrop11, htake, hdropw, hdrop8, beginsWith_append, hp, if_true]
  simp [hw]

/-- If no part of the first list carries inline data, the scan skips
over it. -/
theorem find_skip_no_inline (ts : List GPart) (h : ∀ q ∈ ts, q.inlineData = none)
    (l : List GPart) :
    ((ts ++ l).find? fun p => p.inlineData.isSome) =
      (l.find? fun p => p.inlineData.isSome) := by
  induction ts with
  | nil => rfl
  | cons a as ih =>
    have ha : a.inlineData = none := h a (List.mem_cons_self a as)
    simp only [List.cons_append]
    rw [List.find?_cons_of_neg, ih fun q hq => h q (List.mem_cons_of_mem a hq)]
    simp [ha]

/-! ### Claim theorems -/

/-- Claim C1: when every attempt fails with a transient-server signature,
the transport makes exactly 3 endpoint invocations, waits 1000ms before
attempt 2 and 2000ms before attempt 3, and propagates the third
failure. -/
theorem retry_exhausts_three_attempts
    (endpoint : List Part → Nat → Except String GeminiResponse) (parts : List Part)
    (e1 e2 e3 : String)
    (h1 : endpoint parts 1 = Except.error e1) (t1 : isInternalError e1 = true)
    (h2 : endpoint parts 2 = Except.error e2) (t2 : isInternalError e2 = true)
    (h3 : endpoint parts 3 = Except.error e3) :
    callImageModelWithRetry endpoint parts = (Except.error e3, 3, [1000, 2000]) := by
  unfold callImageModelWithRetry
  unfold callImageModelWithRetryGo
  rw [h1]
  simp only [t1, true_and]
  norm_num
  unfold callImageModelWithRetryGo
  rw [h2]
  simp only [t2, true_and]
  norm_num
  unfold callImageModelWithRetryGo
  rw [h3]
  norm_num

/-- Witness for C1 at a concrete always-transiently-failing endpoint. -/
theorem retry_exhausts_three_attempts_witness :
    callImageModelWithRetry (fun _ _ => Except.error "INTERNAL") [] =
      (Except.error "INTERNAL", 3, [1000, 2000]) :=
  retry_exhausts_three_attempts (fun _ _ => Except.error "INTERNAL") []
    "INTERNAL" "INTERNAL" "INTERNAL" rfl (by decide) rfl (by decide) rfl

/-- Claim C2: a failure is transient exactly when its detail contains
`"code":500` or `INTERNAL`; a non-transient first-attempt failure makes
the transport stop after exactly one invocation, with no backoff delay,
propagating that failure. -/
theorem non_transient_fails_immediately
    (endpoint : List Part → Nat → Except String GeminiResponse) (parts : List Part)
    (e : String) (h : endpoint parts 1 = Except.error e)
    (hn : isInternalError e = false) :
    (∀ msg : String, isInternalError msg =
      (containsSeq "\"code\":500".data msg.data || containsSeq "INTERNAL".data msg.data)) ∧
    callImageModelWithRetry endpoint parts = (Except.error e, 1, []) := by
  refine ⟨fun msg => rfl, ?_⟩
  unfold callImageModelWithRetry
  unfold callImageModelWithRetryGo
  rw [h]
  simp [hn]

/-- Witness for C2 at a concrete endpoint failing with a 404-style
(non-transient) detail. -/
theorem non_transient_fails_immediately_witness :
    callImageModelWithRetry (fun _ _ => Except.error "\"code\":404 NOT_FOUND") [] =
      (Except.error "\"code\":404 NOT_FOUND", 1, []) :=
  (non_transient_fails_immediately (fun _ _ => Except.error "\"code\":404 NOT_FOUND") []
    "\"code\":404 NOT_FOUND" rfl (by decide)).2

/-- Claim C3: the codec round-trips losslessly: decoding the encoded
form `data:<mediaType>;base64,<payload>` of any valid media type
(`image/` followed by word characters) and payload recovers exactly the
same pair. -/
theorem codec_round_trip (w p : String)
    (hw : w.data ≠ []) (hwall : w.data.all wordChar = true)
    (hp : p.data.all dotChar = true) :
    decodeImageDataUrl (encodeImageDataUrl ("image/" ++ w) p) =
      Except.ok ⟨"image/" ++ w, p⟩ := by
  have hs : encodeImageDataUrl ("image/" ++ w) p =
      ⟨"data:image/".data ++ (w.data ++ (";base64,".data ++ p.data))⟩ := by
    apply String.ext
    show ("data:" ++ ("image/" ++ w) ++ ";base64," ++ p).data = _
    simp only [String.data_append]
    simp
  rw [hs]
  exact decode_wellformed w.data p.data hw hwall hp

/-- Witness for C3 at the concrete pair ("image/png", "abc"). -/
theorem codec_round_trip_witness :
    decodeImageDataUrl (encodeImageDataUrl "image/png" "abc") =
      Except.ok ⟨"image/png", "abc"⟩ :=
  codec_round_trip "png" "abc" (by decide) (by decide) (by decide)

/-- Claim C4: a non-data-URL input and a non-image data URL are both
rejected with the format error, and `generateStyledImage` on such an
input fails with that error while invoking the endpoint zero times. -/
theorem decode_format_rejection :
    decodeImageDataUrl "not-a-data-url" = Except.error invalidFormatMsg ∧
    decodeImageDataUrl "data:text/plain;base64,abc" = Except.error invalidFormatMsg ∧
    (∀ (endpoint : List Part → Nat → Except String GeminiResponse)
      (prompt : String) (addl : Option String),
      generateStyledImage endpoint prompt ["not-a-data-url"] addl =
        (Except.error invalidFormatMsg, 0, []) ∧
      generateStyledImage endpoint prompt ["data:text/plain;base64,abc"] addl =
        (Except.error invalidFormatMsg, 0, [])) := by
  refine ⟨rfl, rfl, fun endpoint prompt addl => ⟨?_, ?_⟩⟩ <;>
    simp [generateStyledImage, decodeImageDataUrls,
      show decodeImageDataUrl "not-a-data-url" = Except.error invalidFormatMsg from rfl,
      show decodeImageDataUrl "data:text/plain;base64,abc" = Except.error invalidFormatMsg
        from rfl]

/-- Claim C5: when the response's parts contain at least one part
carrying inline image data, the resolver returns the data URL built
from the first such part's declared media type and payload, ignoring
any earlier non-image parts and everything after it. -/
theorem resolver_first_image_wins (ts : List GPart)
    (hts : ∀ q ∈ ts, q.inlineData = none) (p : GPart) (m d : String)
    (hp : p.inlineData = some (m, d)) (rest : List GPart) :
    processGeminiResponse ⟨ts ++ p :: rest⟩ = Except.ok (encodeImageDataUrl m d) := by
  unfold processGeminiResponse
  have hfind : ((ts ++ p :: rest).find? fun q => q.inlineData.isSome) = some p := by
    rw [find_skip_no_inline ts hts]
    exact List.find?_cons_of_pos _ (by simp [hp])
  simp [hfind, hp]

/-- Witness for C5: a text part followed by two image parts resolves to
the first image part's data, ignoring the text and the later image. -/
theorem resolver_first_image_wins_witness :
    processGeminiResponse ⟨[⟨none, some "caption"⟩, ⟨some ("image/png", "AAA"), none⟩,
      ⟨some ("image/jpeg", "BBB"), none⟩]⟩ = Except.ok "data:image/png;base64,AAA" := by
  have h := resolver_first_image_wins [⟨none, some "caption"⟩] (by decide)
    ⟨some ("image/png", "AAA"), none⟩ "image/png" "AAA" rfl
    [⟨some ("image/jpeg", "BBB"), none⟩]
  simpa using h

/-- Claim C6: when no part carries inline image data, the resolver
fails with a message embedding the response's text verbatim, or the
fixed placeholder when the response carries no text. -/
theorem resolver_no_image_fails (l : List GPart) (h : ∀ q ∈ l, q.inlineData = none) :
    processGeminiResponse ⟨l⟩ =
      Except.error ("The AI model responded with text instead of an image: \"" ++
        (if responseText ⟨l⟩ = "" then placeholderText else responseText ⟨l⟩) ++ "\"") := by
  unfold processGeminiResponse
  have hfind : (l.find? fun q => q.inlineData.isSome) = none := by
    have hf := find_skip_no_inline l h []
    simpa using hf
  simp [hfind]

/-- Witness for C6: a text-only response fails with the text embedded;
an empty response fails with the placeholder embedded. -/
theorem resolver_no_image_fails_witness :
    processGeminiResponse ⟨[GPart.mk none (some "hello")]⟩ =
      Except.error
        "The AI model responded with text instead of an image: \"hello\"" ∧
    processGeminiResponse ⟨[]⟩ =
      Except.error
        ("The AI model responded with text instead of an image: \"" ++
          placeholderText ++ "\"") := by
  constructor
  · have h := resolver_no_image_fails [GPart.mk none (some "hello")] (by decide)
    rw [h]
    rfl
  · have h := resolver_no_image_fails [] (by decide)
    rw [h]
    rfl

/-- Claim C7: the grid-layout table is defined exactly on the closed
count set 4, 6, 8, 9, 12 with values 2x2, 2x3, 2x4, 3x3, 3x4, and a
count outside that set is unrepresentable in the collage-count type the
operation accepts, hence rejected before any prompt is built or any
endpoint call is made. -/
theorem photobooth_grid_contract :
    (∀ n : Nat, gridLayoutLookup n ≠ none ↔ n ∈ [4, 6, 8, 9, 12]) ∧
    (∀ n : Nat, (∃ c : CollageCount, c.toNat = n) ↔ n ∈ [4, 6, 8, 9, 12]) ∧
    (∀ c : CollageCount, gridLayoutLookup c.toNat = some (gridLayout c)) ∧
    gridLayout CollageCount.four = "2x2" ∧ gridLayout CollageCount.six = "2x3" ∧
    gridLayout CollageCount.eight = "2x4" ∧ gridLayout CollageCount.nine = "3x3" ∧
    gridLayout CollageCount.twelve = "3x4" := by
  refine ⟨fun n => ?_, fun n => ?_, fun c => by cases c <;> rfl, rfl, rfl, rfl, rfl, rfl⟩
  · unfold gridLayoutLookup
    split_ifs with h4 h6 h8 h9 h12 <;> simp_all
  · constructor
    · rintro ⟨c, rfl⟩
      cases c <;> simp [CollageCount.toNat]
    · intro hn
      fin_cases hn
      exacts [⟨CollageCount.four, rfl⟩, ⟨CollageCount.six, rfl⟩,
        ⟨CollageCount.eight, rfl⟩, ⟨CollageCount.nine, rfl⟩, ⟨CollageCount.twelve, rfl⟩]

/-- Witness for C7: the unsupported count 5 is unrepresentable and has
no grid layout. -/
theorem photobooth_grid_contract_witness :
    (¬ ∃ c : CollageCount, c.toNat = 5) ∧ gridLayoutLookup 5 = none :=
  ⟨fun h => absurd ((photobooth_grid_contract.2.1 5).mp h) (by decide), by decide⟩

/-- Claim C8: face-swap prompt building places the receiving image's
Part first, the face-source image's Part second, and the instruction
text Part last, and the regeneration block is appended exactly when the
optional refinement is non-empty after trimming. -/
theorem swap_faces_parts_order (src face : String) (addl : Option String)
    (s f : EncodedImage) (hs : decodeImageDataUrl src = Except.ok s)
    (hf : decodeImageDataUrl face = Except.ok f) :
    swapFacesInImageParts src face addl =
      Except.ok [Part.inlineData s.mediaType s.payload,
        Part.inlineData f.mediaType f.payload,
        Part.text (swapFacesBasePrompt ++ regenSuffix addl)] ∧
    (nonEmptyAfterTrim addl = true →
      ∃ t, addl = some t ∧
        regenSuffix addl = "\n\n**REGENERATION INSTRUCTIONS:**\n" ++ t) ∧
    (nonEmptyAfterTrim addl = false → regenSuffix addl = "") := by
  refine ⟨by simp [swapFacesInImageParts, hs, hf], ?_, ?_⟩
  · intro h
    match addl with
    | none => simp [nonEmptyAfterTrim] at h
    | some t =>
      refine ⟨t, rfl, ?_⟩
      simp only [nonEmptyAfterTrim, decide_eq_true_eq] at h
      simp only [regenSuffix]
      rw [if_pos h]
  · intro h
    match addl with
    | none => rfl
    | some t =>
      simp only [nonEmptyAfterTrim, decide_eq_false_iff_not, not_not] at h
      simp only [regenSuffix]
      rw [if_neg (by simp [h])]

/-- Witness for C8 at two concrete images, once with a non-blank
refinement (block appended) and once with a blank one (not appended). -/
theorem swap_faces_parts_order_witness :
    swapFacesInImageParts "data:image/png;base64,AAA" "data:image/jpeg;base64,BBB"
        (some "sharper") =
      Except.ok [Part.inlineData "image/png" "AAA", Part.inlineData "image/jpeg" "BBB",
        Part.text (swapFacesBasePrompt ++ "\n\n**REGENERATION INSTRUCTIONS:**\nsharper")] ∧
    swapFacesInImageParts "data:image/png;base64,AAA" "data:image/jpeg;base64,BBB"
        (some "  ") =
      Except.ok [Part.inlineData "image/png" "AAA", Part.inlineData "image/jpeg" "BBB",
        Part.text (swapFacesBasePrompt ++ "")] := by
  constructor
  · have h := swap_faces_parts_order "data:image/png;base64,AAA"
      "data:image/jpeg;base64,BBB" (some "sharper") ⟨"image/png", "AAA"⟩
      ⟨"image/jpeg", "BBB"⟩ rfl rfl
    rw [h.1]
    obtain ⟨t, ht, hr⟩ := h.2.1 (by decide)
    cases ht
    rw [hr]
    rfl
  · have h := swap_faces_parts_order "data:image/png;base64,AAA"
      "data:image/jpeg;base64,BBB" (some "  ") ⟨"image/png", "AAA"⟩
      ⟨"image/jpeg", "BBB"⟩ rfl rfl
    rw [h.1, h.2.2 (by decide)]

/-- Keys not written by any job keep their initial value. -/
theorem foldl_setJobStatus_not_mem (gen : String → Except String String) :
    ∀ (l : List PromptItem) (init : String → Option JobStatus) (k : String),
      (∀ q ∈ l, q.id ≠ k) →
      l.foldl (fun st q => setJobStatus st q.id (processSinglePrompt gen q)) init k =
        init k := by
  intro l
  induction l with
  | nil => intro init k _; rfl
  | cons a as ih =>
    intro init k h
    simp only [List.foldl_cons]
    rw [ih _ k fun q hq => h q (List.mem_cons_of_mem a hq)]
    exact if_neg fun hk => h a (List.mem_cons_self a as) hk.symm

/-- With distinct job ids, each job's cell in the final map holds
exactly that job's own outcome. -/
theorem foldl_setJobStatus_lookup (gen : String → Except String String) :
    ∀ (l : List PromptItem) (init : String → Option JobStatus) (p : PromptItem),
      p ∈ l → (l.map PromptItem.id).Nodup →
      l.foldl (fun st q => setJobStatus st q.id (processSinglePrompt gen q)) init p.id =
        some (processSinglePrompt gen p) := by
  intro l
  induction l with
  | nil => intro init p hp _; exact absurd hp (List.not_mem_nil p)
  | cons a as ih =>
    intro init p hp hnd
    simp only [List.map_cons, List.nodup_cons] at hnd
    rcases List.mem_cons.mp hp with rfl | hp2
    · simp only [List.foldl_cons]
      rw [foldl_setJobStatus_not_mem gen as _ p.id
        fun q hq hqe => hnd.1 (hqe ▸ List.mem_map_of_mem PromptItem.id hq)]
      exact if_pos rfl
    · simp only [List.foldl_cons]
      exact ih _ p hp2 hnd.2

/-- Claim C9: in a fan-out batch with distinct job ids, a failing job's
status cell records exactly its own error, a succeeding job's cell
records done with its result, and a job's recorded status depends only
on its own operation's outcome, never on the other jobs'. -/
theorem fanout_isolates_failures (gen gen2 : String → Except String String)
    (prompts : List PromptItem) (hnd : (prompts.map PromptItem.id).Nodup)
    (p : PromptItem) (hp : p ∈ prompts) :
    (∀ e, gen p.prompt = Except.error e →
      runBatch gen prompts p.id = some (JobStatus.error e)) ∧
    (∀ u, gen p.prompt = Except.ok u →
      runBatch gen prompts p.id = some (JobStatus.done u)) ∧
    (gen p.prompt = gen2 p.prompt →
      runBatch gen prompts p.id = runBatch gen2 prompts p.id) := by
  have h1 : runBatch gen prompts p.id = some (processSinglePrompt gen p) :=
    foldl_setJobStatus_lookup gen prompts (initialImages prompts) p hp hnd
  have h2 : runBatch gen2 prompts p.id = some (processSinglePrompt gen2 p) :=
    foldl_setJobStatus_lookup gen2 prompts (initialImages prompts) p hp hnd
  refine ⟨fun e he => ?_, fun u hu => ?_, fun heq => ?_⟩
  · rw [h1]
    simp [processSinglePrompt, he]
  · rw [h1]
    simp [processSinglePrompt, hu]
  · rw [h1, h2]
    simp [processSinglePrompt, heq]

/-- Witness for C9: five jobs, job 3 always failing, the rest
succeeding: job 3 reports error, the others done. -/
theorem fanout_isolates_failures_witness :
    runBatch (fun s => if s = "p3" then Except.error "boom" else Except.ok ("img-" ++ s))
        [⟨"1", "p1"⟩, ⟨"2", "p2"⟩, ⟨"3", "p3"⟩, ⟨"4", "p4"⟩, ⟨"5", "p5"⟩] "3" =
      some (JobStatus.error "boom") ∧
    runBatch (fun s => if s = "p3" then Except.error "boom" else Except.ok ("img-" ++ s))
        [⟨"1", "p1"⟩, ⟨"2", "p2"⟩, ⟨"3", "p3"⟩, ⟨"4", "p4"⟩, ⟨"5", "p5"⟩] "4" =
      some (JobStatus.done "img-p4") := by
  constructor
  · exact (fanout_isolates_failures
      (fun s => if s = "p3" then Except.error "boom" else Except.ok ("img-" ++ s))
      (fun s => if s = "p3" then Except.error "boom" else Except.ok ("img-" ++ s))
      [⟨"1", "p1"⟩, ⟨"2", "p2"⟩, ⟨"3", "p3"⟩, ⟨"4", "p4"⟩, ⟨"5", "p5"⟩]
      (by decide) ⟨"3", "p3"⟩ (by decide)).1 "boom" rfl
  · exact (fanout_isolates_failures
      (fun s => if s = "p3" then Except.error "boom" else Except.ok ("img-" ++ s))
      (fun s => if s = "p3" then Except.error "boom" else Except.ok ("img-" ++ s))
      [⟨"1", "p1"⟩, ⟨"2", "p2"⟩, ⟨"3", "p3"⟩, ⟨"4", "p4"⟩, ⟨"5", "p5"⟩]
      (by decide) ⟨"4", "p4"⟩ (by decide)).2.1 "img-p4" rfl

/-- Claim C10: the face-swap operation never reads its unused third
parameter: for any two values of any two types in that position, with
everything else fixed, the built parts list and the overall outcome are
identical. -/
theorem swap_faces_ignores_unused {α β : Type}
    (endpoint : List Part → Nat → Except String GeminiResponse)
    (src face : String) (u : α) (v : β) (addl : Option String) :
    swapFacesInImage endpoint src face u addl =
      swapFacesInImage endpoint src face v addl := rfl

end Momolita
